import Mathlib

/-!
Verification of the HOGBEN notebooks (`notebooks/magnetism.ipynb` and the
simulation notebook).  The notebooks are orchestration glue over the external
`hogben` library; here the glue code is shallowly embedded in Lean, with the
opaque external calls (`simulate_magnetic`, `_logl`, `underlayer_info`,
`reflectivity`) abstracted as parameters, and float arithmetic modelled by
exact rational arithmetic over `ℚ`.
-/

namespace Hogben

/-- NumPy `np.linspace(a, b, n)`: `n` evenly spaced values from `a` to `b` inclusive. -/
def linspace (a b : ℚ) (n : ℕ) : List ℚ :=
  (List.range n).map fun i : ℕ => a + (i : ℚ) * (b - a) / ((n : ℚ) - 1)

/-- Insert a rational into a sorted list, keeping it sorted ascending. -/
def insertSorted (x : ℚ) : List ℚ → List ℚ
  | [] => [x]
  | y :: ys => if x ≤ y then x :: y :: ys else y :: insertSorted x ys

/-- Ascending insertion sort on rationals. -/
def sortAsc (l : List ℚ) : List ℚ := l.foldr insertSorted []

/-- NumPy `np.median`: sort ascending; middle element for odd length, mean of the two
middle elements for even length. -/
def npMedian (l : List ℚ) : ℚ :=
  let s := sortAsc l
  let n := l.length
  if n % 2 = 1 then s.getD (n / 2) 0
  else (s.getD (n / 2 - 1) 0 + s.getD (n / 2) 0) / 2

/-- The notebook global `times = np.linspace(40, 4000, 100)` from the magnetism notebook. -/
def times : List ℚ := linspace 40 4000 100

/-- The notebook global `angle_splits = [(0.5, 100, 1/7), (1.0, 100, 2/7), (2.0, 100, 4/7)]`. -/
def angleSplits : List (ℚ × ℕ × ℚ) := [(0.5, 100, 1/7), (1.0, 100, 2/7), (2.0, 100, 4/7)]

/-- The list `angle_times = [(angle, points, split*total_time) for angle, points,
split in angle_splits]` built inside `calc_log_ratios`. -/
def angleTimesFor (total_time : ℚ) : List (ℚ × ℕ × ℚ) :=
  angleSplits.map fun apt => (apt.1, apt.2.1, apt.2.2 * total_time)

/-- The magnetic moment value `0.01638` set on `sample.pt_mag.value`. -/
def ptMagVal : ℚ := 0.01638

/-- The background `5e-7` passed to `simulate_magnetic`. -/
def bkgVal : ℚ := 5e-7

/-! ### The opaque external library boundary

The notebook calls into the unseen `hogben` library.  `SampleYIG()` is an
object with a mutable parameter `pt_mag.value`; `simulate_magnetic` returns a
`models` object that keeps references into the sample's parameters, so a later
`_logl(models)` call reads the sample's *current* magnetic moment.  This is
modelled by passing the current `pt_mag` value of the aliased sample as an
explicit argument to `logl`, and by threading a call counter `seed` through
`simulateMagnetic` to stand for the stochastic simulation state. -/

/-- The external calls used by `calc_log_ratios`, over abstract types for
structures, models and datasets. -/
structure Ext (S M D : Type) where
  /-- The `pt_mag.value` a fresh `SampleYIG()` carries before the notebook
  assigns to it. -/
  initPtMag : ℚ
  /-- Call `sample.using_conditions(pt_thick=pt_thick)`: arguments are the sample's
  current `pt_mag.value` and the requested Pt thickness. -/
  usingConditions : ℚ → ℚ → S
  /-- Call `simulate_magnetic(structure, angle_times, scale, bkg, dq, pp, pm, mp, mm)`;
  the trailing `ℕ` is the stochastic state of the simulation. -/
  simulateMagnetic : S → List (ℚ × ℕ × ℚ) → ℚ → ℚ → ℚ → Bool → Bool → Bool → Bool → ℕ → M × D
  /-- Call `_logl(models)`: the second argument is the current `pt_mag.value` of the
  sample whose parameters `models` aliases. -/
  logl : M → ℚ → ℚ

/-- Events recorded while executing the embedded notebook code. -/
inductive Event (S M : Type) where
  | newSample (ptMag : ℚ)
  | setPtMag (v : ℚ)
  | usingConditionsCall (ptMag ptThick : ℚ)
  | simulateCall (s : S) (angleTimes : List (ℚ × ℕ × ℚ))
      (scale bkg dq : ℚ) (pp pm mp mm : Bool)
  | loglCall (m : M) (ptMag : ℚ)
  | progress (i n : ℕ)

/-- Holds (`true`) exactly on `simulateCall` events. -/
def Event.isSim {S M : Type} : Event S M → Bool
  | .simulateCall _ _ _ _ _ _ _ _ _ => true
  | _ => false

/-- The `(models, ptMag)` arguments of a `loglCall` event. -/
def Event.loglArgs {S M : Type} : Event S M → Option (M × ℚ)
  | .loglCall m p => some (m, p)
  | _ => none

/-- The `(i, n)` arguments of a `progress` event. -/
def Event.progressArgs {S M : Type} : Event S M → Option (ℕ × ℕ)
  | .progress i n => some (i, n)
  | _ => none

/-- One pass of the inner `for _ in range(20)` body of `calc_log_ratios`:
build `angle_times`, construct a fresh `SampleYIG()`, set `pt_mag.value` to
`0.01638`, derive the structure, simulate once, take `_logl` with the moment
still at `0.01638`, set the moment to `0`, take `_logl` again on the *same*
`models`, and return `logl_1 - logl_2` together with the event trace. -/
def innerIter {S M D : Type} (ext : Ext S M D) (pt_thick total_time : ℚ)
    (seed : ℕ) : ℚ × List (Event S M) :=
  let angle_times := angleTimesFor total_time
  let sample0 : ℚ := ext.initPtMag
  let sample1 : ℚ := ptMagVal
  let str := ext.usingConditions sample1 pt_thick
  let md := ext.simulateMagnetic str angle_times 1 bkgVal 2 true false false true seed
  let models := md.1
  let logl_1 := ext.logl models sample1
  let sample2 : ℚ := 0
  let logl_2 := ext.logl models sample2
  (logl_1 - logl_2,
   [.newSample sample0, .setPtMag ptMagVal,
    .usingConditionsCall sample1 pt_thick,
    .simulateCall str angle_times 1 bkgVal 2 true false false true,
    .loglCall models sample1, .loglCall models sample2])

/-- The body of the outer `for i, total_time in enumerate(times)` loop:
optionally print progress, run the inner loop 20 times, and record the median
of the 20 ratios. -/
def timeStep {S M D : Type} (ext : Ext S M D) (pt_thick : ℚ) (i : ℕ)
    (total_time : ℚ) : ℚ × List (Event S M) :=
  let pre : List (Event S M) := if i % 20 = 0 then [.progress i times.length] else []
  let inner := (List.range 20).map fun k => innerIter ext pt_thick total_time (i * 20 + k)
  (npMedian (inner.map Prod.fst), pre ++ inner.flatMap Prod.snd)

/-- The function `calc_log_ratios(pt_thick)`: the returned list of median log ratios
together with the full event trace. -/
def calcLogRatios {S M D : Type} (ext : Ext S M D) (pt_thick : ℚ) :
    List ℚ × List (Event S M) :=
  let steps := times.enum.map fun p => timeStep ext pt_thick p.1 p.2
  (steps.map Prod.fst, steps.flatMap Prod.snd)

/-! ### The Fisher-information thickness sweep -/

/-- The plan `angle_times = [(0.5, 100, 20), (1.0, 100, 40), (2.0, 100, 80)]` of the
Fisher-information cell. -/
def angleTimesFI : List (ℚ × ℕ × ℚ) := [(0.5, 100, 20), (1.0, 100, 40), (2.0, 100, 80)]

/-- The grid `yig_thick_range = np.linspace(400, 900, 60)`. -/
def yigThickRange : List ℚ := linspace 400 900 60

/-- The grid `pt_thick_range = np.concatenate((np.linspace(21.5, 30, 25),
np.linspace(30, 100, 25)))`. -/
def ptThickRange : List ℚ := linspace 21.5 30 25 ++ linspace 30 100 25

/-- The accumulated state of the sweep: the `x`, `y` and `infos` lists and the
`(i*len(pt_thick_range), n)` arguments of the progress prints. -/
structure SweepAcc where
  x : List ℚ
  y : List ℚ
  infos : List ℚ
  prints : List (ℕ × ℕ)
deriving Repr

/-- The body of the inner `for pt_thick in pt_thick_range` loop: call
`sample.underlayer_info(angle_times, yig_thick, pt_thick)` and append `g[0,0]`
to `infos`, `yig_thick` to `x` and `pt_thick` to `y`. -/
def sweepStep {G : Type} (uinfo : List (ℚ × ℕ × ℚ) → ℚ → ℚ → G) (g00 : G → ℚ)
    (yig : ℚ) (a : SweepAcc) (pt : ℚ) : SweepAcc :=
  let g := uinfo angleTimesFI yig pt
  { a with infos := a.infos ++ [g00 g], x := a.x ++ [yig], y := a.y ++ [pt] }

/-- The body of the outer `for i, yig_thick in enumerate(yig_thick_range)`
loop: print `'>>> {i*len(pt_thick_range)}/{n}'` when `i % 5 == 0`, then run the
inner loop over `pt_thick_range`. -/
def sweepOuterStep {G : Type} (uinfo : List (ℚ × ℕ × ℚ) → ℚ → ℚ → G)
    (g00 : G → ℚ) (acc : SweepAcc) (p : ℕ × ℚ) : SweepAcc :=
  let acc1 := if p.1 % 5 = 0
    then { acc with prints :=
             acc.prints ++ [(p.1 * ptThickRange.length,
                             ptThickRange.length * yigThickRange.length)] }
    else acc
  ptThickRange.foldl (sweepStep uinfo g00 p.2) acc1

/-- The full double loop `for i, yig_thick in enumerate(yig_thick_range): ...
for pt_thick in pt_thick_range: ...`, with its progress prints.  `uinfo`
abstracts `sample.underlayer_info` and `g00` extracts the `[0,0]` entry of the
returned matrix. -/
def underlayerSweep {G : Type} (uinfo : List (ℚ × ℕ × ℚ) → ℚ → ℚ → G)
    (g00 : G → ℚ) : SweepAcc :=
  yigThickRange.enum.foldl (sweepOuterStep uinfo g00) ⟨[], [], [], []⟩

/-! ### The log-ratio plot cell -/

/-- The x-array `1.5*times` passed to both `ax.plot` calls. -/
def logRatioPlotXs : List ℚ := times.map fun t => 1.5 * t

/-- The two curves drawn by the log-ratio cell:
`ax.plot(1.5*times, calc_log_ratios(26))` and
`ax.plot(1.5*times, calc_log_ratios(80))`. -/
def logRatioPlot {S M D : Type} (ext : Ext S M D) :
    (List ℚ × List ℚ) × (List ℚ × List ℚ) :=
  ((logRatioPlotXs, (calcLogRatios ext 26).1),
   (logRatioPlotXs, (calcLogRatios ext 80).1))

/-! ### The simulation notebook: refnx and Refl1D structures -/

/-- A refnx slab: `SLD(rho, name)(thick=…, rough=…)`; a bare `SLD` used in a
structure has `thick = 0` and `rough = 0`. -/
structure RefnxSlab where
  rho : ℚ
  thick : ℚ
  rough : ℚ
deriving DecidableEq, Repr

/-- A Refl1D slab: `SLD(rho=…, name)(thickness=…, interface=…)`; a bare `SLD`
used in a stack has `thickness = 0` and `interface = 0`. -/
structure Refl1dSlab where
  rho : ℚ
  thickness : ℚ
  interface : ℚ
deriving DecidableEq, Repr

/-- refnx `air = SLD(0, name='Air')`. -/
def refnxAir : RefnxSlab := ⟨0, 0, 0⟩
/-- refnx `layer1 = SLD(4, name='Layer 1')(thick=100, rough=2)`. -/
def refnxLayer1 : RefnxSlab := ⟨4, 100, 2⟩
/-- refnx `layer2 = SLD(8, name='Layer 2')(thick=150, rough=2)`. -/
def refnxLayer2 : RefnxSlab := ⟨8, 150, 2⟩
/-- refnx `substrate = SLD(2.047, name='Substrate')(thick=0, rough=2)`. -/
def refnxSubstrate : RefnxSlab := ⟨2.047, 0, 2⟩

/-- The structure `sample_1 = air | layer1 | layer2 | substrate` (refnx order: fronting
medium first, i.e. top-down). -/
def sample_1 : List RefnxSlab := [refnxAir, refnxLayer1, refnxLayer2, refnxSubstrate]

/-- Refl1D `air = SLD(rho=0, name='Air')`. -/
def refl1dAir : Refl1dSlab := ⟨0, 0, 0⟩
/-- Refl1D `layer1 = SLD(rho=4, name='Layer 1')(thickness=100, interface=2)`. -/
def refl1dLayer1 : Refl1dSlab := ⟨4, 100, 2⟩
/-- Refl1D `layer2 = SLD(rho=8, name='Layer 2')(thickness=150, interface=2)`. -/
def refl1dLayer2 : Refl1dSlab := ⟨8, 150, 2⟩
/-- Refl1D `substrate = SLD(rho=2.047, name='Substrate')(thickness=0, interface=2)`. -/
def refl1dSubstrate : Refl1dSlab := ⟨2.047, 0, 2⟩

/-- The stack `sample_2 = substrate | layer2 | layer1 | air` (Refl1D order: substrate
first, i.e. bottom-up, the reverse of refnx). -/
def sample_2 : List Refl1dSlab := [refl1dSubstrate, refl1dLayer2, refl1dLayer1, refl1dAir]

/-- A physical layer description, listed top-down (fronting medium first):
SLD, thickness, and the roughness of the interface between the layer and the
one above it. -/
structure PhysLayer where
  sld : ℚ
  thickness : ℚ
  roughAbove : ℚ
deriving DecidableEq, Repr

/-- Physical reading of a refnx structure: already top-down; `rough` is the
roughness between a slab and the preceding (upper) one. -/
def refnxPhys (s : List RefnxSlab) : List PhysLayer :=
  s.map fun l => ⟨l.rho, l.thick, l.rough⟩

/-- Physical reading of a Refl1D stack: listed bottom-up with `interface` the
roughness on top of each layer, so reversing gives the top-down description. -/
def refl1dPhys (s : List Refl1dSlab) : List PhysLayer :=
  (s.map fun l => ⟨l.rho, l.thickness, l.interface⟩).reverse

/-! ### `plot_reflectivity` -/

/-- Column extraction `q, r, dr, counts = data[:,0], data[:,1], data[:,2], data[:,3]`:
the four columns of the simulated data array. -/
def extractCols (data : List (ℚ × ℚ × ℚ × ℚ)) :
    List ℚ × List ℚ × List ℚ × List ℚ :=
  (data.map fun row => row.1, data.map fun row => row.2.1,
   data.map fun row => row.2.2.1, data.map fun row => row.2.2.2)

/-- What `plot_reflectivity` draws: the model curve `(q, reflectivity(q, model))`,
the simulated points `(q, r)` with error bars `dr`, a logarithmic y-scale and
the x-limits `(0, 0.3)`. -/
structure ReflPlot where
  modelX : List ℚ
  modelY : List ℚ
  simX : List ℚ
  simY : List ℚ
  simErr : List ℚ
  yscaleLog : Bool
  xlim : ℚ × ℚ

/-- The helper `plot_reflectivity(model, data)`, with `reflectivity` abstracted as `refl`.
The result also returns the `model` and `data` values as they stand after the
call, so that the absence of mutation is part of the embedding. -/
def plotReflectivity {Mo : Type} (refl : List ℚ → Mo → List ℚ) (model : Mo)
    (data : List (ℚ × ℚ × ℚ × ℚ)) :
    ReflPlot × Mo × List (ℚ × ℚ × ℚ × ℚ) :=
  let cols := extractCols data
  let q := cols.1
  let r := cols.2.1
  let dr := cols.2.2.1
  let r_model := refl q model
  (⟨q, r_model, q, r, dr, true, (0, 0.3)⟩, model, data)

/-! ### Fallible variants: Python exceptions as `Except` -/

/-- The external calls of `calc_log_ratios` when each may raise (`Except`). -/
structure ExtE (S M D E : Type) where
  usingConditions : ℚ → ℚ → Except E S
  simulateMagnetic : S → List (ℚ × ℕ × ℚ) → ℚ → ℚ → ℚ → Bool → Bool → Bool → Bool → ℕ → Except E (M × D)
  logl : M → ℚ → Except E ℚ

/-- A Python `for` loop accumulating one value per element: the first raised
exception aborts the whole loop and discards the partial accumulator. -/
def mapME {α β E : Type} (f : α → Except E β) : List α → Except E (List β)
  | [] => .ok []
  | a :: l => do
    let b ← f a
    let bs ← mapME f l
    pure (b :: bs)

/-- Fallible inner iteration of `calc_log_ratios`. -/
def innerIterE {S M D E : Type} (ext : ExtE S M D E) (pt_thick total_time : ℚ)
    (seed : ℕ) : Except E ℚ := do
  let angle_times := angleTimesFor total_time
  let str ← ext.usingConditions ptMagVal pt_thick
  let md ← ext.simulateMagnetic str angle_times 1 bkgVal 2 true false false true seed
  let logl_1 ← ext.logl md.1 ptMagVal
  let logl_2 ← ext.logl md.1 0
  pure (logl_1 - logl_2)

/-- Fallible `calc_log_ratios`: any exception from an external call propagates
and the partially accumulated `ratios` list is lost. -/
def calcLogRatiosE {S M D E : Type} (ext : ExtE S M D E) (pt_thick : ℚ) :
    Except E (List ℚ) :=
  mapME
    (fun p => do
      let temp ← mapME (fun k => innerIterE ext pt_thick p.2 (p.1 * 20 + k))
        (List.range 20)
      pure (npMedian temp))
    times.enum

/-- Fallible `plot_reflectivity`: an exception from `reflectivity` propagates. -/
def plotReflectivityE {Mo E : Type} (refl : List ℚ → Mo → Except E (List ℚ))
    (model : Mo) (data : List (ℚ × ℚ × ℚ × ℚ)) :
    Except E (ReflPlot × Mo × List (ℚ × ℚ × ℚ × ℚ)) := do
  let cols := extractCols data
  let r_model ← refl cols.1 model
  pure (⟨cols.1, r_model, cols.1, cols.2.1, cols.2.2.1, true, (0, 0.3)⟩, model, data)

/-! ### Auxiliary definitions for stating and instantiating the theorems -/

/-- The `(i, n)` arguments of the progress prints occurring in a trace. -/
def progressEvents {S M : Type} (tr : List (Event S M)) : List (ℕ × ℕ) :=
  tr.filterMap Event.progressArgs

/-- A trivial total instantiation of the external library boundary. -/
def extTriv : Ext Unit Unit Unit :=
  { initPtMag := 0
    usingConditions := fun _ _ => ()
    simulateMagnetic := fun _ _ _ _ _ _ _ _ _ _ => ((), ())
    logl := fun _ _ => 0 }

/-- An instantiation whose `simulate_magnetic` always raises exception `e`. -/
def extFailSim (e : ℕ) : ExtE Unit Unit Unit ℕ :=
  { usingConditions := fun _ _ => .ok ()
    simulateMagnetic := fun _ _ _ _ _ _ _ _ _ _ => .error e
    logl := fun _ _ => .ok 0 }

/-- A `reflectivity` stand-in that always raises exception `e`. -/
def reflFail (e : ℕ) : List ℚ → Unit → Except ℕ (List ℚ) := fun _ _ => .error e

/-! ## General lemmas about the embedded code -/


/-- Closed form of the inner sweep loop. -/
theorem foldl_sweepStep {G : Type} (uinfo : List (ℚ × ℕ × ℚ) → ℚ → ℚ → G)
    (g00 : G → ℚ) (yig : ℚ) :
    ∀ (pts : List ℚ) (a : SweepAcc),
      pts.foldl (sweepStep uinfo g00 yig) a =
        ⟨a.x ++ pts.map (fun _ => yig), a.y ++ pts,
         a.infos ++ pts.map (fun pt => g00 (uinfo angleTimesFI yig pt)),
         a.prints⟩ := by
  intro pts
  induction pts with
  | nil => intro a; simp
  | cons p tl ih =>
    intro a
    rw [List.foldl_cons, ih]
    simp [sweepStep, List.append_assoc]

/-- Closed form of the outer sweep loop. -/
theorem foldl_sweepOuterStep {G : Type} (uinfo : List (ℚ × ℕ × ℚ) → ℚ → ℚ → G)
    (g00 : G → ℚ) :
    ∀ (l : List (ℕ × ℚ)) (a : SweepAcc),
      l.foldl (sweepOuterStep uinfo g00) a =
        ⟨a.x ++ l.flatMap (fun p => ptThickRange.map fun _ => p.2),
         a.y ++ l.flatMap (fun _ => ptThickRange),
         a.infos ++ l.flatMap (fun p =>
           ptThickRange.map fun pt => g00 (uinfo angleTimesFI p.2 pt)),
         a.prints ++ (l.filter (fun p => p.1 % 5 = 0)).map
           (fun p => (p.1 * ptThickRange.length,
                      ptThickRange.length * yigThickRange.length))⟩ := by
  intro l
  induction l with
  | nil => intro a; simp
  | cons p tl ih =>
    intro a
    rw [List.foldl_cons, ih]
    by_cases h : p.1 % 5 = 0 <;>
      simp [sweepOuterStep, h, foldl_sweepStep, List.append_assoc]

/-- Closed form of `underlayerSweep`. -/
theorem underlayerSweep_eq {G : Type} (uinfo : List (ℚ × ℕ × ℚ) → ℚ → ℚ → G)
    (g00 : G → ℚ) :
    underlayerSweep uinfo g00 =
      ⟨yigThickRange.enum.flatMap (fun p => ptThickRange.map fun _ => p.2),
       yigThickRange.enum.flatMap (fun _ => ptThickRange),
       yigThickRange.enum.flatMap (fun p =>
         ptThickRange.map fun pt => g00 (uinfo angleTimesFI p.2 pt)),
       (yigThickRange.enum.filter (fun p => p.1 % 5 = 0)).map
         (fun p => (p.1 * ptThickRange.length,
                    ptThickRange.length * yigThickRange.length))⟩ := by
  rw [underlayerSweep, foldl_sweepOuterStep]
  simp



/-- Length of a `flatMap` whose blocks all have length `c`. -/
theorem length_flatMap_const {α β : Type} (f : α → List β) (c : ℕ)
    (l : List α) (h : ∀ a ∈ l, (f a).length = c) :
    (l.flatMap f).length = l.length * c := by
  induction l with
  | nil => simp
  | cons a tl ih =>
    have ha : (f a).length = c := h a (by simp)
    have htl : (tl.flatMap f).length = tl.length * c :=
      ih fun x hx => h x (by simp [hx])
    simp only [List.flatMap_cons, List.length_append, ha, htl, List.length_cons]
    ring

/-- Indexing into a `flatMap` whose blocks all have length `c`. -/
theorem getD_flatMap_uniform {α β : Type} (f : α → List β) (c : ℕ)
    (hf : ∀ a, (f a).length = c) (d : β) :
    ∀ (l : List α) (i j : ℕ) (hi : i < l.length), j < c →
      (l.flatMap f).getD (i * c + j) d = (f (l.get ⟨i, hi⟩)).getD j d := by
  intro l
  induction l with
  | nil => intro i j hi _; exact absurd hi (by simp)
  | cons a tl ih =>
    intro i j hi hj
    cases i with
    | zero =>
      rw [List.flatMap_cons, Nat.zero_mul, Nat.zero_add,
        List.getD_append _ _ _ j (by rw [hf]; exact hj)]
      rfl
    | succ i =>
      have hlen : (i + 1) * c + j = (f a).length + (i * c + j) := by
        rw [hf, Nat.succ_mul]; omega
      rw [List.flatMap_cons, hlen,
        List.getD_append_right _ _ _ _ (by omega), Nat.add_sub_cancel_left]
      exact ih i j (Nat.lt_of_succ_lt_succ hi) hj

/-- NumPy `np.linspace(a, b, n)` has `n` entries. -/
theorem linspace_length (a b : ℚ) (n : ℕ) : (linspace a b n).length = n := by
  simp [linspace]

/-- Value of `np.linspace` at an index. -/
theorem linspace_getD (a b : ℚ) (n : ℕ) (i : ℕ) (hi : i < n) (d : ℚ) :
    (linspace a b n).getD i d = a + i * (b - a) / ((n : ℚ) - 1) := by
  have h1 : i < (linspace a b n).length := by rw [linspace_length]; exact hi
  rw [List.getD_eq_getElem _ _ h1]
  simp only [linspace, List.getElem_map, List.getElem_range]

/-- The times list is `40, 80, …, 4000`. -/
theorem times_getD (i : ℕ) (hi : i < 100) :
    times.getD i 0 = 40 + 40 * (i : ℚ) := by
  rw [times, linspace_getD _ _ _ _ hi]
  norm_num
  ring



theorem times_length : times.length = 100 := by rw [times, linspace_length]

/-- The list returned by `calc_log_ratios` has one entry per element of `times`. -/
theorem calcLogRatios_length {S M D : Type} (ext : Ext S M D) (pt : ℚ) :
    (calcLogRatios ext pt).1.length = times.length := by
  simp [calcLogRatios, List.enum_length]

/-- The `i`-th entry of `calc_log_ratios` is the median of the 20 inner ratios
computed at `times[i]`. -/
theorem calcLogRatios_getD {S M D : Type} (ext : Ext S M D) (pt : ℚ) (i : ℕ)
    (hi : i < times.length) :
    (calcLogRatios ext pt).1.getD i 0 =
      npMedian ((List.range 20).map fun k =>
        (innerIter ext pt (times.getD i 0) (i * 20 + k)).1) := by
  have h1 : i < ((times.enum.map fun p => timeStep ext pt p.1 p.2).map Prod.fst).length := by
    simp [List.enum_length]; exact hi
  simp only [calcLogRatios]
  rw [List.getD_eq_getElem _ _ h1, List.getElem_map, List.getElem_map,
    List.getElem_enum, List.getD_eq_getElem _ _ hi]
  simp [timeStep, List.map_map, Function.comp_def]

theorem except_bind_ok {E α β : Type} (a : α) (f : α → Except E β) :
    (Except.ok a >>= f) = f a := rfl

theorem except_bind_error {E α β : Type} (e : E) (f : α → Except E β) :
    ((Except.error e : Except E α) >>= f) = Except.error e := rfl

/-- A loop that finishes without an exception produced one value per element. -/
theorem mapME_ok_length {α β E : Type} (f : α → Except E β) :
    ∀ (l : List α) (bs : List β), mapME f l = .ok bs → bs.length = l.length := by
  intro l
  induction l with
  | nil =>
    intro bs h
    rw [mapME] at h
    cases h
    rfl
  | cons a tl ih =>
    intro bs h
    rw [mapME] at h
    cases hfa : f a with
    | error e => rw [hfa, except_bind_error] at h; cases h
    | ok b =>
      rw [hfa, except_bind_ok] at h
      cases htl : mapME f tl with
      | error e => rw [htl, except_bind_error] at h; cases h
      | ok bs' =>
        rw [htl, except_bind_ok] at h
        cases h
        simp [ih bs' htl]

/-- A loop over a nonempty list whose body always raises `e` raises `e`. -/
theorem mapME_error {α β E : Type} (f : α → Except E β) (e : E) :
    ∀ (l : List α), l ≠ [] → (∀ a ∈ l, f a = .error e) → mapME f l = .error e := by
  intro l hl hf
  cases l with
  | nil => exact absurd rfl hl
  | cons a tl =>
    rw [mapME, hf a (by simp), except_bind_error]



/-- An inner iteration prints nothing. -/
theorem progressEvents_innerIter {S M D : Type} (ext : Ext S M D)
    (pt tt : ℚ) (seed : ℕ) : progressEvents (innerIter ext pt tt seed).2 = [] := by
  simp [progressEvents, innerIter, Event.progressArgs]

/-- One outer iteration prints `(i, len(times))` exactly when `i % 20 == 0`. -/
theorem progressEvents_timeStep {S M D : Type} (ext : Ext S M D) (pt : ℚ)
    (i : ℕ) (tt : ℚ) :
    progressEvents (timeStep ext pt i tt).2 =
      if i % 20 = 0 then [(i, times.length)] else [] := by
  by_cases h : i % 20 = 0 <;>
    simp [progressEvents, timeStep, h, List.filterMap_append,
      List.filterMap_flatMap, List.flatMap_def, List.map_map, Function.comp_def,
      innerIter, Event.progressArgs]

/-- The progress prints of `calc_log_ratios`. -/
theorem progressEvents_calcLogRatios {S M D : Type} (ext : Ext S M D) (pt : ℚ) :
    progressEvents (calcLogRatios ext pt).2 =
      ((List.range times.length).filter (fun i => i % 20 = 0)).map
        (fun i => (i, times.length)) := by
  have h2 : progressEvents (calcLogRatios ext pt).2 =
      times.enum.flatMap (fun p => if p.1 % 20 = 0 then [(p.1, times.length)] else []) := by
    simp only [calcLogRatios, progressEvents, List.flatMap_map,
      List.filterMap_flatMap]
    congr 1
    funext p
    exact progressEvents_timeStep ext pt p.1 p.2
  rw [h2]
  decide



/-- If `using_conditions` succeeds and `simulate_magnetic` raises `e`, the
inner iteration raises `e`. -/
theorem innerIterE_error {S M D E : Type} (ext : ExtE S M D E) (e : E)
    (husing : ∀ pm pth, ∃ s, ext.usingConditions pm pth = .ok s)
    (hsim : ∀ s ats sc bk dqv pp pm mp mm k,
      ext.simulateMagnetic s ats sc bk dqv pp pm mp mm k = .error e)
    (pt tt : ℚ) (seed : ℕ) : innerIterE ext pt tt seed = .error e := by
  obtain ⟨s, hs⟩ := husing ptMagVal pt
  rw [innerIterE]
  rw [hs, except_bind_ok, hsim, except_bind_error]

/-- Under the same conditions, `calc_log_ratios` raises `e`. -/
theorem calcLogRatiosE_error {S M D E : Type} (ext : ExtE S M D E) (e : E)
    (husing : ∀ pm pth, ∃ s, ext.usingConditions pm pth = .ok s)
    (hsim : ∀ s ats sc bk dqv pp pm mp mm k,
      ext.simulateMagnetic s ats sc bk dqv pp pm mp mm k = .error e)
    (pt : ℚ) : calcLogRatiosE ext pt = .error e := by
  rw [calcLogRatiosE]
  apply mapME_error _ e _ (by decide)
  intro p _
  have h20 : mapME (fun k => innerIterE ext pt p.2 (p.1 * 20 + k))
      (List.range 20) = .error e :=
    mapME_error _ e _ (by decide)
      (fun k _ => innerIterE_error ext e husing hsim pt p.2 (p.1 * 20 + k))
  rw [h20, except_bind_error]

/-- A raise inside `reflectivity` propagates out of `plot_reflectivity`. -/
theorem plotReflectivityE_error {Mo E : Type} (refl : List ℚ → Mo → Except E (List ℚ))
    (model : Mo) (data : List (ℚ × ℚ × ℚ × ℚ)) (e : E)
    (h : refl (data.map fun row => row.1) model = .error e) :
    plotReflectivityE refl model data = .error e := by
  rw [plotReflectivityE]
  rw [show (extractCols data).1 = data.map (fun row => row.1) from rfl, h,
    except_bind_error]



theorem ptThickRange_length : ptThickRange.length = 50 := by decide

theorem yigThickRange_length : yigThickRange.length = 60 := by decide

/-- Sweep fact `x[i*50+j] = yig_thick_range[i]`. -/
theorem sweep_x_getD {G : Type} (uinfo : List (ℚ × ℕ × ℚ) → ℚ → ℚ → G)
    (g00 : G → ℚ) (i j : ℕ) (hi : i < 60) (hj : j < 50) :
    (underlayerSweep uinfo g00).x.getD (i * 50 + j) 0 = yigThickRange.getD i 0 := by
  have hi' : i < yigThickRange.enum.length := by
    rw [List.enum_length, yigThickRange_length]; exact hi
  rw [underlayerSweep_eq]
  rw [show (50 : ℕ) = ptThickRange.length from ptThickRange_length.symm] at hj ⊢
  rw [getD_flatMap_uniform _ ptThickRange.length
    (fun p => by rw [List.length_map]) 0 _ i j hi' hj]
  rw [List.get_eq_getElem, List.getElem_enum]
  rw [List.getD_eq_getElem _ _ (by rw [List.length_map]; exact hj), List.getElem_map]
  rw [List.getD_eq_getElem _ _ (by rw [yigThickRange_length]; exact hi)]

/-- Sweep fact `y[i*50+j] = pt_thick_range[j]`. -/
theorem sweep_y_getD {G : Type} (uinfo : List (ℚ × ℕ × ℚ) → ℚ → ℚ → G)
    (g00 : G → ℚ) (i j : ℕ) (hi : i < 60) (hj : j < 50) :
    (underlayerSweep uinfo g00).y.getD (i * 50 + j) 0 = ptThickRange.getD j 0 := by
  have hi' : i < yigThickRange.enum.length := by
    rw [List.enum_length, yigThickRange_length]; exact hi
  rw [underlayerSweep_eq]
  rw [show (50 : ℕ) = ptThickRange.length from ptThickRange_length.symm] at hj
  rw [show i * 50 = i * ptThickRange.length by rw [ptThickRange_length]]
  exact getD_flatMap_uniform _ ptThickRange.length (fun _ => rfl) 0 _ i j hi' hj

/-- Sweep fact `infos[i*50+j] = underlayer_info(angle_times, yig[i], pt[j])[0,0]`. -/
theorem sweep_infos_getD {G : Type} (uinfo : List (ℚ × ℕ × ℚ) → ℚ → ℚ → G)
    (g00 : G → ℚ) (i j : ℕ) (hi : i < 60) (hj : j < 50) :
    (underlayerSweep uinfo g00).infos.getD (i * 50 + j) 0 =
      g00 (uinfo angleTimesFI (yigThickRange.getD i 0) (ptThickRange.getD j 0)) := by
  have hi' : i < yigThickRange.enum.length := by
    rw [List.enum_length, yigThickRange_length]; exact hi
  rw [underlayerSweep_eq]
  rw [show (50 : ℕ) = ptThickRange.length from ptThickRange_length.symm] at hj ⊢
  rw [getD_flatMap_uniform _ ptThickRange.length
    (fun p => by rw [List.length_map]) 0 _ i j hi' hj]
  rw [List.get_eq_getElem, List.getElem_enum]
  rw [List.getD_eq_getElem _ _ (by rw [List.length_map]; exact hj), List.getElem_map]
  rw [List.getD_eq_getElem _ _ (by rw [yigThickRange_length]; exact hi),
    List.getD_eq_getElem _ _ (by exact hj)]



/-- The three sweep lists all have `60 * 50 = 3000` entries. -/
theorem sweep_lengths {G : Type} (uinfo : List (ℚ × ℕ × ℚ) → ℚ → ℚ → G)
    (g00 : G → ℚ) :
    (underlayerSweep uinfo g00).x.length = 3000 ∧
    (underlayerSweep uinfo g00).y.length = 3000 ∧
    (underlayerSweep uinfo g00).infos.length = 3000 := by
  rw [underlayerSweep_eq]
  refine ⟨?_, ?_, ?_⟩ <;>
    rw [length_flatMap_const _ 50 _ (fun p _ => by
          first
            | rw [List.length_map, ptThickRange_length]
            | exact ptThickRange_length),
        List.enum_length, yigThickRange_length]

theorem ptThickRange_getD_24 : ptThickRange.getD 24 0 = 30 := by
  rw [ptThickRange, List.getD_append _ _ _ 24 (by rw [linspace_length]; omega),
    linspace_getD _ _ _ _ (by omega)]
  norm_num

theorem ptThickRange_getD_25 : ptThickRange.getD 25 0 = 30 := by
  rw [ptThickRange, List.getD_append_right _ _ _ 25 (by rw [linspace_length])]
  rw [linspace_length]
  rw [show 25 - 25 = 0 from rfl, linspace_getD _ _ _ _ (by omega)]
  norm_num

set_option maxHeartbeats 1000000 in
theorem ptThickRange_count : ptThickRange.count 30 = 2 := by
  have h : List.range 25 =
      [0, 1, 2, 3, 4, 5, 6, 7, 8, 9, 10, 11, 12, 13, 14, 15, 16, 17, 18, 19,
       20, 21, 22, 23, 24] := rfl
  rw [ptThickRange, linspace, linspace, h]
  simp only [List.map_cons, List.map_nil, List.count_append]
  norm_num [List.count_cons, beq_iff_eq]

/-! ## The claims -/


/-- C1: for every Pt layer thickness and each of the 100 values of `times`
(in order), `calc_log_ratios(pt_thick)` records exactly one value: the median
over exactly 20 repeated simulations of `logl_1 - logl_2`, where `logl_1` is
the log-likelihood of the models simulated with the Pt moment at `0.01638`
and `logl_2` the log-likelihood after setting the moment to `0`; the returned
list has length `len(times)` and its `i`-th entry corresponds to `times[i]`. -/
theorem calc_log_ratios_spec {S M D : Type} (ext : Ext S M D) (pt_thick : ℚ) :
    (calcLogRatios ext pt_thick).1.length = times.length ∧
    ∀ i, i < times.length →
      (calcLogRatios ext pt_thick).1.getD i 0 =
        npMedian ((List.range 20).map fun k =>
          ext.logl (ext.simulateMagnetic (ext.usingConditions ptMagVal pt_thick)
              (angleTimesFor (times.getD i 0)) 1 bkgVal 2
              true false false true (i * 20 + k)).1 ptMagVal -
          ext.logl (ext.simulateMagnetic (ext.usingConditions ptMagVal pt_thick)
              (angleTimesFor (times.getD i 0)) 1 bkgVal 2
              true false false true (i * 20 + k)).1 0) := by
  refine ⟨calcLogRatios_length ext pt_thick, fun i hi => ?_⟩
  rw [calcLogRatios_getD ext pt_thick i hi]
  simp [innerIter]

/-- Witness for C1 at a concrete instantiation, `pt_thick = 26`, `i = 0`. -/
theorem calc_log_ratios_spec_witness :
    (calcLogRatios extTriv 26).1.length = times.length ∧
    (calcLogRatios extTriv 26).1.getD 0 0 =
      npMedian ((List.range 20).map fun k =>
        extTriv.logl (extTriv.simulateMagnetic (extTriv.usingConditions ptMagVal 26)
            (angleTimesFor (times.getD 0 0)) 1 bkgVal 2
            true false false true (0 * 20 + k)).1 ptMagVal -
        extTriv.logl (extTriv.simulateMagnetic (extTriv.usingConditions ptMagVal 26)
            (angleTimesFor (times.getD 0 0)) 1 bkgVal 2
            true false false true (0 * 20 + k)).1 0) :=
  ⟨(calc_log_ratios_spec extTriv 26).1,
   (calc_log_ratios_spec extTriv 26).2 0 (by rw [times_length]; omega)⟩



/-- C2: each inner iteration of `calc_log_ratios` performs exactly one
simulation; both `_logl` calls are made on the very same `models` object
returned by that single `simulate_magnetic` call, the first with the sample's
moment at `0.01638` and the second after mutating it to `0`; the iteration
starts from a freshly constructed `SampleYIG()` whose moment is set to
`0.01638` before the structure is derived and simulated; and if `_logl` does
not depend on the mutated sample parameter (i.e. `models` does not alias it),
the two log-likelihoods coincide and the recorded ratio is `0`. -/
theorem calc_log_ratios_inner_frame {S M D : Type} (ext : Ext S M D)
    (pt_thick total_time : ℚ) (seed : ℕ) :
    ((innerIter ext pt_thick total_time seed).2.countP Event.isSim = 1) ∧
    ((innerIter ext pt_thick total_time seed).2.filterMap Event.loglArgs =
      [((ext.simulateMagnetic (ext.usingConditions ptMagVal pt_thick)
           (angleTimesFor total_time) 1 bkgVal 2 true false false true seed).1,
        ptMagVal),
       ((ext.simulateMagnetic (ext.usingConditions ptMagVal pt_thick)
           (angleTimesFor total_time) 1 bkgVal 2 true false false true seed).1,
        0)]) ∧
    ((innerIter ext pt_thick total_time seed).2.take 4 =
      [.newSample ext.initPtMag, .setPtMag ptMagVal,
       .usingConditionsCall ptMagVal pt_thick,
       .simulateCall (ext.usingConditions ptMagVal pt_thick)
         (angleTimesFor total_time) 1 bkgVal 2 true false false true]) ∧
    ((∀ m a b, ext.logl m a = ext.logl m b) →
      (innerIter ext pt_thick total_time seed).1 = 0) := by
  refine ⟨?_, ?_, ?_, fun h => ?_⟩
  · simp [innerIter, List.countP_cons, Event.isSim]
  · simp [innerIter, Event.loglArgs]
  · simp [innerIter]
  · have hq := h (ext.simulateMagnetic (ext.usingConditions ptMagVal pt_thick)
      (angleTimesFor total_time) 1 bkgVal 2 true false false true seed).1 ptMagVal 0
    simp [innerIter, hq]

/-- Witness for C2 at a concrete instantiation with a non-aliasing `_logl`. -/
theorem calc_log_ratios_inner_frame_witness :
    (innerIter extTriv 26 40 0).2.countP Event.isSim = 1 ∧
    (innerIter extTriv 26 40 0).1 = 0 :=
  ⟨(calc_log_ratios_inner_frame extTriv 26 40 0).1,
   (calc_log_ratios_inner_frame extTriv 26 40 0).2.2.2 (fun _ _ _ => rfl)⟩



/-- C3: for every `total_time` drawn from `times`, the measurement plan passed
to `simulate_magnetic` inside `calc_log_ratios` preserves the angles
`0.5, 1.0, 2.0` and the `100` points per angle of `angle_splits`, each
per-angle time equals `split * total_time`, the splits `1/7, 2/7, 4/7` sum to
`1`, and the per-angle times sum to `total_time`. -/
theorem angle_times_plan_spec (total_time : ℚ) (_ht : total_time ∈ times) :
    angleTimesFor total_time =
      [(0.5, 100, 1/7 * total_time), (1.0, 100, 2/7 * total_time),
       (2.0, 100, 4/7 * total_time)] ∧
    (angleTimesFor total_time).map (fun apt => apt.1) =
      angleSplits.map (fun apt => apt.1) ∧
    (∀ apt ∈ angleTimesFor total_time, apt.2.1 = 100) ∧
    ((1 : ℚ)/7 + 2/7 + 4/7 = 1) ∧
    ((angleTimesFor total_time).map (fun apt => apt.2.2)).sum = total_time := by
  refine ⟨?_, ?_, ?_, by norm_num, ?_⟩
  · simp [angleTimesFor, angleSplits]
  · simp [angleTimesFor]
  · intro apt h
    simp only [angleTimesFor, angleSplits, List.map_cons, List.map_nil,
      List.mem_cons, List.not_mem_nil, or_false] at h
    rcases h with rfl | rfl | rfl <;> rfl
  · simp only [angleTimesFor, angleSplits, List.map_cons, List.map_nil,
      List.sum_cons, List.sum_nil]
    ring

/-- Witness for C3 at `total_time = times[0] = 40`. -/
theorem angle_times_plan_spec_witness :
    ((angleTimesFor (times.getD 0 0)).map (fun apt => apt.2.2)).sum =
      times.getD 0 0 :=
  (angle_times_plan_spec (times.getD 0 0)
    (by
      rw [List.getD_eq_getElem _ _ (by rw [times_length]; omega)]
      exact List.getElem_mem (by rw [times_length]; omega))).2.2.2.2



/-- C4: the Fisher-information thickness sweep visits every pair of the
60-element YIG grid and the 50-element Pt grid in row-major order (YIG outer,
Pt inner), appending `yig_thick` to `x`, `pt_thick` to `y` and the `[0,0]`
entry of `sample.underlayer_info(angle_times, yig_thick, pt_thick)` to
`infos`, so all three lists end with `60 * 50 = 3000` entries. -/
theorem underlayer_sweep_spec {G : Type} (uinfo : List (ℚ × ℕ × ℚ) → ℚ → ℚ → G)
    (g00 : G → ℚ) :
    (underlayerSweep uinfo g00).x.length = 3000 ∧
    (underlayerSweep uinfo g00).y.length = 3000 ∧
    (underlayerSweep uinfo g00).infos.length = 3000 ∧
    yigThickRange.length * ptThickRange.length = 3000 ∧
    ∀ i j, i < 60 → j < 50 →
      (underlayerSweep uinfo g00).x.getD (i * 50 + j) 0 = yigThickRange.getD i 0 ∧
      (underlayerSweep uinfo g00).y.getD (i * 50 + j) 0 = ptThickRange.getD j 0 ∧
      (underlayerSweep uinfo g00).infos.getD (i * 50 + j) 0 =
        g00 (uinfo angleTimesFI (yigThickRange.getD i 0) (ptThickRange.getD j 0)) := by
  obtain ⟨hx, hy, hi⟩ := sweep_lengths uinfo g00
  refine ⟨hx, hy, hi, by rw [yigThickRange_length, ptThickRange_length], ?_⟩
  intro i j hi' hj'
  exact ⟨sweep_x_getD uinfo g00 i j hi' hj', sweep_y_getD uinfo g00 i j hi' hj',
    sweep_infos_getD uinfo g00 i j hi' hj'⟩

/-- Witness for C4 at a concrete instantiation and `i = j = 0`. -/
theorem underlayer_sweep_spec_witness :
    (underlayerSweep (fun _ _ _ => ()) (fun _ => 0)).x.length = 3000 ∧
    (underlayerSweep (fun _ _ _ => ()) (fun _ => 0)).x.getD 0 0 =
      yigThickRange.getD 0 0 :=
  ⟨(underlayer_sweep_spec (fun _ _ _ => ()) (fun _ => 0)).1,
   (((underlayer_sweep_spec (fun _ _ _ => ()) (fun _ => 0)).2.2.2.2 0 0
      (by omega) (by omega)).1)⟩



/-- C10: the Pt thickness grid is the concatenation of
`np.linspace(21.5, 30, 25)` and `np.linspace(30, 100, 25)`, so it has 50
entries with the value 30 appearing twice (at indices 24 and 25);
consequently, for every YIG thickness the sweep evaluates `underlayer_info`
at `pt_thick = 30` twice and records that pair twice in `x`, `y` and
`infos`. -/
theorem pt_thick_duplicate_spec {G : Type} (uinfo : List (ℚ × ℕ × ℚ) → ℚ → ℚ → G)
    (g00 : G → ℚ) :
    ptThickRange = linspace 21.5 30 25 ++ linspace 30 100 25 ∧
    ptThickRange.length = 50 ∧
    ptThickRange.count 30 = 2 ∧
    ptThickRange.getD 24 0 = 30 ∧
    ptThickRange.getD 25 0 = 30 ∧
    ∀ i, i < 60 →
      (underlayerSweep uinfo g00).x.getD (i * 50 + 24) 0 = yigThickRange.getD i 0 ∧
      (underlayerSweep uinfo g00).x.getD (i * 50 + 25) 0 = yigThickRange.getD i 0 ∧
      (underlayerSweep uinfo g00).y.getD (i * 50 + 24) 0 = 30 ∧
      (underlayerSweep uinfo g00).y.getD (i * 50 + 25) 0 = 30 ∧
      (underlayerSweep uinfo g00).infos.getD (i * 50 + 24) 0 =
        g00 (uinfo angleTimesFI (yigThickRange.getD i 0) 30) ∧
      (underlayerSweep uinfo g00).infos.getD (i * 50 + 25) 0 =
        g00 (uinfo angleTimesFI (yigThickRange.getD i 0) 30) := by
  refine ⟨rfl, ptThickRange_length, ptThickRange_count, ptThickRange_getD_24,
    ptThickRange_getD_25, fun i hi => ?_⟩
  refine ⟨sweep_x_getD uinfo g00 i 24 hi (by omega),
    sweep_x_getD uinfo g00 i 25 hi (by omega), ?_, ?_, ?_, ?_⟩
  · rw [sweep_y_getD uinfo g00 i 24 hi (by omega), ptThickRange_getD_24]
  · rw [sweep_y_getD uinfo g00 i 25 hi (by omega), ptThickRange_getD_25]
  · rw [sweep_infos_getD uinfo g00 i 24 hi (by omega), ptThickRange_getD_24]
  · rw [sweep_infos_getD uinfo g00 i 25 hi (by omega), ptThickRange_getD_25]

/-- Witness for C10 at a concrete instantiation and `i = 0`. -/
theorem pt_thick_duplicate_spec_witness :
    ptThickRange.count 30 = 2 ∧
    (underlayerSweep (fun _ _ _ => ()) (fun _ => (0 : ℚ))).y.getD 24 0 = 30 ∧
    (underlayerSweep (fun _ _ _ => ()) (fun _ => (0 : ℚ))).y.getD 25 0 = 30 :=
  ⟨(pt_thick_duplicate_spec (fun _ _ _ => ()) (fun _ => 0)).2.2.1,
   (by
     have h := ((pt_thick_duplicate_spec (fun _ _ _ => ()) (fun _ => (0:ℚ))).2.2.2.2.2
       0 (by omega)).2.2.1
     simpa using h),
   (by
     have h := ((pt_thick_duplicate_spec (fun _ _ _ => ()) (fun _ => (0:ℚ))).2.2.2.2.2
       0 (by omega)).2.2.2.1
     simpa using h)⟩



/-- C8: both sweep loops are sequential and print progress at fixed periods:
`calc_log_ratios` prints `(i, len(times))` before processing time index `i`
exactly when `i % 20 == 0`, and the thickness sweep prints
`(i*len(pt_thick_range), n)` with `n = len(pt_thick_range)*len(yig_thick_range)`
before processing YIG index `i` exactly when `i % 5 == 0`. -/
theorem progress_prints_spec {S M D G : Type} (ext : Ext S M D) (pt_thick : ℚ)
    (uinfo : List (ℚ × ℕ × ℚ) → ℚ → ℚ → G) (g00 : G → ℚ) :
    progressEvents (calcLogRatios ext pt_thick).2 =
      ((List.range times.length).filter (fun i => i % 20 = 0)).map
        (fun i => (i, times.length)) ∧
    (underlayerSweep uinfo g00).prints =
      ((List.range yigThickRange.length).filter (fun i => i % 5 = 0)).map
        (fun i => (i * ptThickRange.length,
                   ptThickRange.length * yigThickRange.length)) := by
  refine ⟨progressEvents_calcLogRatios ext pt_thick, ?_⟩
  have h : (underlayerSweep uinfo g00).prints =
      (yigThickRange.enum.filter (fun p => p.1 % 5 = 0)).map
        (fun p => (p.1 * ptThickRange.length,
                   ptThickRange.length * yigThickRange.length)) := by
    rw [underlayerSweep_eq]
  rw [h]
  decide



/-- C9: in the log-ratio figure, each plotted counting-time x value equals
`1.5` times the `total_time` used in the corresponding simulation — the plot
passes `1.5*times` for both the 26 Å and 80 Å curves — and not `2` times it. -/
theorem log_ratio_plot_x_spec {S M D : Type} (ext : Ext S M D) (i : ℕ)
    (hi : i < 100) :
    (logRatioPlot ext).1.1 = logRatioPlotXs ∧
    (logRatioPlot ext).2.1 = logRatioPlotXs ∧
    (logRatioPlot ext).1.2 = (calcLogRatios ext 26).1 ∧
    (logRatioPlot ext).2.2 = (calcLogRatios ext 80).1 ∧
    logRatioPlotXs.getD i 0 = 1.5 * times.getD i 0 ∧
    logRatioPlotXs.getD i 0 ≠ 2 * times.getD i 0 := by
  have hx : logRatioPlotXs.getD i 0 = 1.5 * times.getD i 0 := by
    rw [logRatioPlotXs,
      List.getD_eq_getElem _ _ (by rw [List.length_map, times_length]; exact hi),
      List.getElem_map, List.getD_eq_getElem _ _ (by rw [times_length]; exact hi)]
  have ht : times.getD i 0 = 40 + 40 * (i : ℚ) := times_getD i hi
  have hpos : (0 : ℚ) < times.getD i 0 := by
    rw [ht]
    positivity
  refine ⟨rfl, rfl, rfl, rfl, hx, ?_⟩
  rw [hx]
  intro hcontra
  nlinarith [hpos]

/-- Witness for C9 at a concrete instantiation and `i = 0`. -/
theorem log_ratio_plot_x_spec_witness :
    logRatioPlotXs.getD 0 0 = 1.5 * times.getD 0 0 ∧
    logRatioPlotXs.getD 0 0 ≠ 2 * times.getD 0 0 :=
  ⟨(log_ratio_plot_x_spec extTriv 0 (by omega)).2.2.2.2.1,
   (log_ratio_plot_x_spec extTriv 0 (by omega)).2.2.2.2.2⟩



/-- C5: the refnx structure `sample_1` and the Refl1D structure `sample_2`
describe the same physical sample — identical per-layer SLDs
`(0, 4, 8, 2.047)`, thicknesses `(100, 150, 0 for the substrate)` and
roughness/interface values `2`, with the Refl1D stacking order reversed — so
any model reflectivity computed from the physical layer description agrees on
a common Q grid between the two definitions. -/
theorem refnx_refl1d_equivalence :
    refnxPhys sample_1 = refl1dPhys sample_2 ∧
    sample_1.map RefnxSlab.rho = [0, 4, 8, 2.047] ∧
    sample_2.map Refl1dSlab.rho = [2.047, 8, 4, 0] ∧
    sample_1.map RefnxSlab.thick = [0, 100, 150, 0] ∧
    sample_2.map Refl1dSlab.thickness = [0, 150, 100, 0] ∧
    sample_1.map RefnxSlab.rough = [0, 2, 2, 2] ∧
    sample_2.map Refl1dSlab.interface = [2, 2, 2, 0] ∧
    ∀ (refl : List PhysLayer → ℚ → ℚ) (q : List ℚ),
      q.map (refl (refnxPhys sample_1)) = q.map (refl (refl1dPhys sample_2)) := by
  have h : refnxPhys sample_1 = refl1dPhys sample_2 := rfl
  exact ⟨h, rfl, rfl, rfl, rfl, rfl, rfl, fun refl q => by rw [h]⟩

/-- C6: `plot_reflectivity(model, data)` extracts columns 0–3 of `data` as
`q, r, dr, counts`, computes the model curve `reflectivity(q, model)`, draws
the model and simulated reflectivity against Q on a logarithmic y-scale, and
leaves both `model` and `data` unmodified. -/
theorem plot_reflectivity_spec {Mo : Type} (refl : List ℚ → Mo → List ℚ)
    (model : Mo) (data : List (ℚ × ℚ × ℚ × ℚ)) :
    extractCols data =
      (data.map (fun row => row.1), data.map (fun row => row.2.1),
       data.map (fun row => row.2.2.1), data.map (fun row => row.2.2.2)) ∧
    (plotReflectivity refl model data).1.modelX = data.map (fun row => row.1) ∧
    (plotReflectivity refl model data).1.modelY =
      refl (data.map (fun row => row.1)) model ∧
    (plotReflectivity refl model data).1.simX = data.map (fun row => row.1) ∧
    (plotReflectivity refl model data).1.simY = data.map (fun row => row.2.1) ∧
    (plotReflectivity refl model data).1.simErr =
      data.map (fun row => row.2.2.1) ∧
    (plotReflectivity refl model data).1.yscaleLog = true ∧
    (plotReflectivity refl model data).2.1 = model ∧
    (plotReflectivity refl model data).2.2 = data :=
  ⟨rfl, rfl, rfl, rfl, rfl, rfl, rfl, rfl, rfl⟩



/-- C7: neither `calc_log_ratios` nor `plot_reflectivity` handles or retries
errors: an exception raised by an external call propagates to the caller, the
result of `calc_log_ratios` is either a full `len(times)`-entry list or the
propagated exception — a partially accumulated `ratios` list is never
returned — and an exception from `reflectivity` propagates out of
`plot_reflectivity`. -/
theorem error_propagation_spec :
    (∀ (S M D E : Type) (ext : ExtE S M D E) (pt_thick : ℚ),
      (∃ e, calcLogRatiosE ext pt_thick = .error e) ∨
      (∃ l, calcLogRatiosE ext pt_thick = .ok l ∧ l.length = times.length)) ∧
    (∀ (S M D E : Type) (ext : ExtE S M D E) (e : E) (pt_thick : ℚ),
      (∀ pm pth, ∃ s, ext.usingConditions pm pth = .ok s) →
      (∀ s ats sc bk dqv pp pm mp mm k,
        ext.simulateMagnetic s ats sc bk dqv pp pm mp mm k = .error e) →
      calcLogRatiosE ext pt_thick = .error e) ∧
    (∀ (Mo E : Type) (refl : List ℚ → Mo → Except E (List ℚ)) (model : Mo)
      (data : List (ℚ × ℚ × ℚ × ℚ)) (e : E),
      refl (data.map fun row => row.1) model = .error e →
      plotReflectivityE refl model data = .error e) := by
  refine ⟨?_, ?_, ?_⟩
  · intro S M D E ext pt_thick
    cases h : calcLogRatiosE ext pt_thick with
    | error e => exact .inl ⟨e, rfl⟩
    | ok l =>
      exact .inr ⟨l, rfl, by
        rw [mapME_ok_length _ _ _ h, List.enum_length]⟩
  · intro S M D E ext e pt_thick h1 h2
    exact calcLogRatiosE_error ext e h1 h2 pt_thick
  · intro Mo E refl model data e h
    exact plotReflectivityE_error refl model data e h

/-- Witness for C7 at concrete failing instantiations. -/
theorem error_propagation_spec_witness :
    calcLogRatiosE (extFailSim 7) 26 = .error 7 ∧
    plotReflectivityE (reflFail 5) () [] = .error 5 :=
  ⟨error_propagation_spec.2.1 Unit Unit Unit ℕ (extFailSim 7) 7 26
      (fun _ _ => ⟨(), rfl⟩) (fun _ _ _ _ _ _ _ _ _ _ => rfl),
   error_propagation_spec.2.2 Unit ℕ (reflFail 5) () [] 5 rfl⟩

end Hogben
